import Mathlib

/-!
Shallow embedding of src/floats_video_to_waveforms_06_12_2024.py.

Modelling conventions:
  * Pixel coordinates and scale factors are rationals (exact model of the
    float arithmetic the script performs: additions, halvings, divisions).
    The Euclidean norm used by the per-stake scale derivation needs a square
    root, so that part of the pipeline is modelled over the reals.
  * A video capture (cv2.VideoCapture) is a list of decodable frames plus the
    reported CAP_PROP_FRAME_COUNT value; cap.read() pops the next frame, and
    CAP_PROP_POS_FRAMES is the number of frames read so far.
  * The cv2 tracker (cv2.legacy_TrackerCSRT) is an opaque stateful capability:
    creation plus init seeds a state from the first frame and a selected ROI,
    and update consumes a frame and returns (success flag, bounding box, next
    state).  cv2.rectangle mutates the frame it is given; the model threads
    that mutation explicitly, exactly where the script draws (line 121),
    which is before later trackers in the same loop iteration update.
  * The human inputs (cv2.selectROI on line 99, the gradation points chosen
    through orth.define_stakes on line 148) are parameters of the model.
  * numpy index assignment position[current_frame, i] = center raises
    IndexError when current_frame is out of range; the model returns a
    distinct error value for that, since the exception aborts the run.
  * Display calls (imshow, waitKey) are modelled only through the escape-key
    break on line 125: an input stream of key presses decides the break.
    Plotting (matplotlib) and persistence (np.save) are external output
    collaborators and are not modelled; the functions return the arrays the
    script returns.
-/

namespace Waves

/-- A bounding box (x, y, width, height), as returned by the cv2 tracker. -/
structure BBox where
  x : ℚ
  y : ℚ
  w : ℚ
  h : ℚ
deriving DecidableEq

/-- Center of a box, line 119 of the source:
(bbox[0] + bbox[2] / 2, bbox[1] + bbox[3] / 2). -/
def BBox.center (b : BBox) : ℚ × ℚ := (b.x + b.w / 2, b.y + b.h / 2)

/-- The cv2 capabilities the script uses, over an abstract frame type φ and
tracker state type σ: tracker creation plus init (line 102 and 104), tracker
update (line 117), and rectangle drawing which mutates the frame (line 121). -/
structure Cv2Model (φ σ : Type) where
  init : φ → BBox → σ
  update : σ → φ → Bool × BBox × σ
  rectangle : φ → BBox → φ

/-- A video capture: the decodable frames in order, and the reported
CAP_PROP_FRAME_COUNT (which may under- or over-shoot the decodable count). -/
structure Cap (φ : Type) where
  frames : List φ
  frameCount : ℕ

/-- The two fatal outcomes of the tracking function: the first frame cannot
be read (the script prints a diagnostic and returns None, line 93 to 95), or
a numpy IndexError from an out-of-range frame index on line 119. -/
inductive TrackError where
  | sourceError
  | indexError
deriving DecidableEq

/-- The trajectory buffer: frame index by marker index by 2 coordinates,
line 108: np.zeros((total_frames, num_stakes, 2)). -/
abbrev Traj := List (List (ℚ × ℚ))

/-- The numpy write position[current_frame, i] = center on line 119: an
out-of-range frame index raises IndexError (the marker index i is always in
range because the loop enumerates the trackers that size the buffer). -/
def writeCell (pos : Traj) (f i : ℕ) (c : ℚ × ℚ) : Except TrackError Traj :=
  if f < pos.length then
    .ok (pos.set f ((pos.getD f []).set i c))
  else
    .error .indexError

/-- The inner loop over trackers, lines 116 to 121: each tracker updates on
the current frame; on success the center is written into the buffer and the
bounding box is drawn onto the frame, so later trackers in the same iteration
see the mutated frame.  Returns the advanced tracker states and the buffer. -/
def updateTrackers {φ σ : Type} (cv : Cv2Model φ σ) (fIdx : ℕ) :
    List σ → φ → ℕ → Traj → Except TrackError (List σ × Traj)
  | [], _, _, pos => .ok ([], pos)
  | s :: ss, frame, i, pos =>
    let r := cv.update s frame
    if r.1 then
      (writeCell pos fIdx i (BBox.center r.2.1)).bind fun pos1 =>
        (updateTrackers cv fIdx ss (cv.rectangle frame r.2.1) (i + 1) pos1).map
          fun p => (r.2.2 :: p.1, p.2)
    else
      (updateTrackers cv fIdx ss frame (i + 1) pos).map
        fun p => (r.2.2 :: p.1, p.2)

/-- The outer while loop, lines 110 to 126: read a frame (stop when the
source is exhausted), compute current_frame = POS_FRAMES - 1, run every
tracker, and optionally break early on the escape key when the display is
shown.  readsDone counts frames read so far, so the frame just read has
index readsDone (POS_FRAMES is then readsDone + 1). -/
def trackLoop {φ σ : Type} (cv : Cv2Model φ σ) (showWin : Bool) (esc : ℕ → Bool) :
    List φ → ℕ → List σ → Traj → Except TrackError Traj
  | [], _, _, pos => .ok pos
  | f :: rest, readsDone, states, pos =>
    (updateTrackers cv readsDone states f 0 pos).bind fun sp =>
      if showWin && esc readsDone then .ok sp.2
      else trackLoop cv showWin esc rest (readsDone + 1) sp.1 sp.2

/-- Lines 79 to 130 of the source, for a capture whose prior reads have
already consumed posFrames frames (POS_FRAMES of a cv2 capture counts every
frame read on the object, so it starts at posFrames here; frames lists only
the still-unread ones).  Returns the printed output together with either the
position buffer or the fatal outcome.  When the first read fails the script
prints the diagnostic and returns None (modelled as sourceError); otherwise
one tracker per stake is seeded on the first remaining frame from the
selected ROIs, the buffer is allocated as zeros of shape (reported frame
count, num_stakes, 2), the reported count is printed, and the per-frame loop
runs, recording frame index POS_FRAMES - 1 = posFrames + k for the k-th
loop read. -/
def track_objects_in_video_from {φ σ : Type} (cv : Cv2Model φ σ) (posFrames : ℕ)
    (frames : List φ) (frameCount num_stakes : ℕ) (rois : ℕ → BBox)
    (showWin : Bool) (esc : ℕ → Bool) : List String × Except TrackError Traj :=
  match frames with
  | [] => (["Error: Could not read video frame."], .error .sourceError)
  | f0 :: rest =>
    let trackers := (List.range num_stakes).map fun i => cv.init f0 (rois i)
    let pos := List.replicate frameCount (List.replicate num_stakes ((0 : ℚ), (0 : ℚ)))
    ([toString frameCount], trackLoop cv showWin esc rest (posFrames + 1) trackers pos)

/-- Lines 79 to 130 of the source as called on a fresh capture, the way the
rectified pipeline of line 37 calls it: no frame has been read yet, so
POS_FRAMES starts at 0, trackers are seeded on frame 0, and the loop records
frame indices from 1 on. -/
def track_objects_in_video {φ σ : Type} (cv : Cv2Model φ σ) (cap : Cap φ)
    (num_stakes : ℕ) (rois : ℕ → BBox) (showWin : Bool) (esc : ℕ → Bool) :
    List String × Except TrackError Traj :=
  track_objects_in_video_from cv 0 cap.frames cap.frameCount num_stakes rois showWin esc

/-- The elementwise division position / ppm on line 40 (numpy broadcasts the
scalar over every cell). -/
def divScalar (pos : Traj) (ppm : ℚ) : Traj :=
  pos.map fun row => row.map fun p => (p.1 / ppm, p.2 / ppm)

/-- Lines 19 to 53: track, then divide the whole position array by the
scalar ppm.  Plotting and np.save are external outputs; the function returns
the calibrated array the script returns (or the tracking failure). -/
def rect_floats_video_to_waveform {φ σ : Type} (cv : Cv2Model φ σ) (cap : Cap φ)
    (ppm : ℚ) (num_stakes : ℕ) (rois : ℕ → BBox) (showWin : Bool) (esc : ℕ → Bool) :
    List String × Except TrackError Traj :=
  let r := track_objects_in_video cv cap num_stakes rois showWin esc
  (r.1, r.2.map fun pos => divScalar pos ppm)

/-- The numpy division positions / ppm on line 159, where positions has shape
(total_frames, num_stakes, 2) and ppm has shape (num_stakes,).  Broadcasting
aligns trailing axes, so the vector is matched against the final axis of size
2: a length-1 vector stretches over both coordinates, a length-2 vector
divides the x coordinate of every marker by its first entry and the y
coordinate by its second, and any other length raises ValueError (none). -/
def np_div_vec {α : Type} [Div α] (pos : List (List (α × α))) (v : List α) :
    Option (List (List (α × α))) :=
  match v with
  | [a] => some (pos.map fun row => row.map fun p => (p.1 / a, p.2 / a))
  | [a, b] => some (pos.map fun row => row.map fun p => (p.1 / a, p.2 / b))
  | _ => none

/-- Line 152: ppm = np.linalg.norm(all_points[:,0] - all_points[:,1], axis=1).
Each stake contributes a pair of reference points; the derived scale for that
stake is the Euclidean norm of their difference. -/
noncomputable def derive_scale (pts : List ((ℝ × ℝ) × (ℝ × ℝ))) : List ℝ :=
  pts.map fun pq =>
    Real.sqrt ((pq.1.1 - pq.2.1) ^ 2 + (pq.1.2 - pq.2.2) ^ 2)

/-- Cast a rational pixel trajectory into the reals (the numpy arrays are
float throughout; the cast is the identity on the values the model uses). -/
def trajToReal (pos : Traj) : List (List (ℝ × ℝ)) :=
  pos.map fun row => row.map fun p => ((p.1 : ℝ), (p.2 : ℝ))

/-- Lines 132 to 162: open the capture, read the first frame (line 141: this
consumes frame 0 for the human gradation-point selection whose outcome is the
all_points parameter, and advances POS_FRAMES to 1), derive the per-stake
scale, then track on the advanced capture (line 156: trackers initialize on
frame 1 and the loop first records frame index 2) and divide positions by
the derived scale vector (line 159).  An unreadable first frame leaves
define_stakes with no frame (the script crashes there), a tracking failure
propagates (the script would crash on None / ppm), and a broadcast mismatch
is the ValueError outcome: in each case no result is produced (none). -/
noncomputable def unrectified_to_waveform {φ σ : Type} (cv : Cv2Model φ σ)
    (cap : Cap φ) (num_stakes : ℕ) (all_points : List ((ℝ × ℝ) × (ℝ × ℝ)))
    (rois : ℕ → BBox) (showWin : Bool) (esc : ℕ → Bool) :
    Option (List (List (ℝ × ℝ))) :=
  match cap.frames with
  | [] => none
  | _f0 :: rest =>
    match (track_objects_in_video_from cv 1 rest cap.frameCount num_stakes rois
        showWin esc).2 with
    | .error _ => none
    | .ok positions => np_div_vec (trajToReal positions) (derive_scale all_points)

/-- Shape of the second dimension: every row of the buffer has one cell per
stake. -/
def shapeOK (n : ℕ) (pos : Traj) : Prop := ∀ row ∈ pos, row.length = n

/-- A concrete tracker bank whose trackers always succeed with the fixed box
(8, 8, 4, 4), of center (10, 10); drawing leaves the frame unchanged. -/
def cvConst : Cv2Model Unit Unit where
  init := fun _ _ => ()
  update := fun _ _ => (true, ⟨8, 8, 4, 4⟩, ())
  rectangle := fun f _ => f

/-- A capture with two decodable frames and a matching reported count. -/
def capTwo : Cap Unit := ⟨[(), ()], 2⟩

/-- Degenerate ROI selection: every prompt returns the zero box. -/
def roisZero : ℕ → BBox := fun _ => ⟨0, 0, 0, 0⟩

/-- No escape key is ever pressed. -/
def escNever : ℕ → Bool := fun _ => false

/-- A tracker bank sensitive to drawn overlays: the frame records whether any
rectangle has been drawn on it, and the reported box depends on that, the way
a visual tracker reads the pixels it is given. -/
def cvDraw : Cv2Model Bool Unit where
  init := fun _ _ => ()
  update := fun _ f => (true, if f then ⟨2, 2, 0, 0⟩ else ⟨0, 0, 0, 0⟩, ())
  rectangle := fun _ _ => true

/-- Two clean frames for the overlay-sensitive bank. -/
def capDraw : Cap Bool := ⟨[false, false], 2⟩

/-- A tracker bank where the tracker seeded from the box at x = 0 always
succeeds with box (-1, -1, 2, 2), whose center is the valid position (0, 0),
and every other tracker always fails (LOST). -/
def cvHalf : Cv2Model Unit BBox where
  init := fun _ b => b
  update := fun b _ => (b.x == 0, ⟨-1, -1, 2, 2⟩, b)
  rectangle := fun f _ => f

/-- ROI selection that tags the i-th marker with x-position i. -/
def roisIdx : ℕ → BBox := fun i => ⟨(i : ℚ), 0, 0, 0⟩

/-- A capture with three decodable frames and a matching reported count. -/
def capThree : Cap Unit := ⟨[(), (), ()], 3⟩

/-- Reference pairs where the two points of stake 0 coincide: the derived
scales are 0 and 2. -/
noncomputable def ptsZero : List ((ℝ × ℝ) × (ℝ × ℝ)) :=
  [((1, 1), (1, 1)), ((0, 0), (0, 2))]

/-- Concrete evaluation shared below: tracking two stakes on a capture that a
prior read has already advanced (three decodable frames, reported count 3)
initializes the trackers on the second frame and records the constant
tracker center (10, 10) for both stakes at frame index 2, leaving rows 0 and
1 zero. -/
theorem trackFrom_capThree_two :
    (track_objects_in_video_from cvConst 1 [(), ()] 3 2 roisZero false escNever).2
      = .ok [[(0, 0), (0, 0)], [(0, 0), (0, 0)], [(10, 10), (10, 10)]] := by
  norm_num [track_objects_in_video_from, trackLoop, updateTrackers, writeCell,
    BBox.center, cvConst, roisZero, escNever, List.replicate, List.getD,
    Except.bind, Except.map]

/-- Claim C8: when the video yields no first frame, the run prints the
diagnostic "Error: Could not read video frame." and aborts with the fatal
source error, no retry, and the calling pipeline produces no waveform
result. -/
theorem c8_source_error {φ σ : Type} (cv : Cv2Model φ σ) (total num_stakes : ℕ)
    (rois : ℕ → BBox) (showWin : Bool) (esc : ℕ → Bool) (ppm : ℚ) :
    track_objects_in_video cv ⟨[], total⟩ num_stakes rois showWin esc
      = (["Error: Could not read video frame."], .error .sourceError) ∧
    (rect_floats_video_to_waveform cv ⟨[], total⟩ ppm num_stakes rois showWin esc).2
      = .error .sourceError :=
  ⟨rfl, rfl⟩

/-- Claim C3, refuted on the code: the script draws each successful bounding
box onto the frame before the remaining trackers update on that same frame,
so marker 1 records (2, 2) at frame 1 in the two-marker run but (0, 0) when
its tracker runs separately on the same clean frames. -/
theorem c3_overlay_interference :
    (track_objects_in_video cvDraw capDraw 2 roisZero false escNever).2
      = .ok [[(0, 0), (0, 0)], [(0, 0), (2, 2)]] ∧
    (track_objects_in_video cvDraw capDraw 1 roisZero false escNever).2
      = .ok [[(0, 0)], [(0, 0)]] ∧
    ((track_objects_in_video cvDraw capDraw 2 roisZero false escNever).2.toOption.bind
        fun p => p[1]?.bind fun r => r[1]?)
      ≠ ((track_objects_in_video cvDraw capDraw 1 roisZero false escNever).2.toOption.bind
        fun p => p[1]?.bind fun r => r[0]?) := by
  refine ⟨?_, ?_, ?_⟩ <;>
    norm_num [track_objects_in_video, track_objects_in_video_from, trackLoop, updateTrackers, writeCell,
      BBox.center, cvDraw, capDraw, roisZero, escNever, List.replicate, List.getD,
      Except.bind, Except.map, Except.toOption]

/-- Claim C5, refuted on the code: at frame 1 marker 0 is ACTIVE with true
center (0, 0) while marker 1 is LOST, yet both cells of the returned buffer
hold the identical value (0, 0): the lost cell keeps the zero initialization
and is not distinguishable from a valid (0, 0) position. -/
theorem c5_no_sentinel :
    (track_objects_in_video cvHalf ⟨[(), ()], 2⟩ 2 roisIdx false escNever).2
      = .ok [[(0, 0), (0, 0)], [(0, 0), (0, 0)]] ∧
    ((track_objects_in_video cvHalf ⟨[(), ()], 2⟩ 2 roisIdx false escNever).2.toOption.bind
        fun p => p[1]?.bind fun r => r[0]?)
      = ((track_objects_in_video cvHalf ⟨[(), ()], 2⟩ 2 roisIdx false escNever).2.toOption.bind
        fun p => p[1]?.bind fun r => r[1]?) := by
  refine ⟨?_, ?_⟩ <;>
    norm_num [track_objects_in_video, track_objects_in_video_from, trackLoop, updateTrackers, writeCell,
      BBox.center, cvHalf, roisIdx, escNever, List.replicate, List.getD,
      Except.bind, Except.map, Except.toOption]

/-- Claim C9, counterexample: with two decodable frames but a reported frame
count of 1, the loop reaches frame index 1, outside the buffer of length 1,
and the run aborts with the fatal index error instead of returning a
trajectory. -/
theorem c9_counterexample :
    (track_objects_in_video cvConst ⟨[(), ()], 1⟩ 1 roisZero false escNever).2
      = .error .indexError := by
  norm_num [track_objects_in_video, track_objects_in_video_from, trackLoop, updateTrackers, writeCell,
    BBox.center, cvConst, roisZero, escNever, List.replicate, List.getD,
    Except.bind, Except.map]

/-- Claim C4, counterexample: with the non-positive scale ppm = -1 the
pipeline performs the elementwise division anyway and returns a waveform
result, raising no calibration error at all. -/
theorem c4_counterexample :
    (rect_floats_video_to_waveform cvConst capTwo (-1) 1 roisZero false escNever).2
      = .ok [[(0, 0)], [(-10, -10)]] := by
  norm_num [rect_floats_video_to_waveform, divScalar, track_objects_in_video, track_objects_in_video_from,
    trackLoop, updateTrackers, writeCell, BBox.center, cvConst, capTwo, roisZero,
    escNever, List.replicate, List.getD, Except.bind, Except.map]

/-- Claim C4, amended: the code performs no scale validation and raises no
calibration error.  Whenever tracking succeeds, the scalar pipeline divides
by ppm whatever its sign (zero included, where numpy would emit non-finite
values rather than raise) and always produces the divided array; and the
per-marker pipeline applies the derived scale vector unchecked, still
producing a result when an entry of the vector is zero. -/
theorem c4_amended {φ σ : Type} (cv : Cv2Model φ σ) (cap : Cap φ) (ppm : ℚ)
    (num_stakes : ℕ) (rois : ℕ → BBox) (showWin : Bool) (esc : ℕ → Bool) (traj : Traj)
    (ht : (track_objects_in_video cv cap num_stakes rois showWin esc).2 = .ok traj) :
    (rect_floats_video_to_waveform cv cap ppm num_stakes rois showWin esc).2
      = .ok (divScalar traj ppm) ∧
    (unrectified_to_waveform cvConst capThree 2 ptsZero roisZero false escNever).isSome
      = true := by
  constructor
  · have h : (rect_floats_video_to_waveform cv cap ppm num_stakes rois showWin esc).2
        = ((track_objects_in_video cv cap num_stakes rois showWin esc).2).map
            fun pos => divScalar pos ppm := rfl
    rw [ht] at h
    exact h
  · have hds0 : derive_scale ptsZero = [0, 2] := by
      simp only [derive_scale, ptsZero, List.map]
      rw [show ((1 : ℝ) - 1) ^ 2 + ((1 : ℝ) - 1) ^ 2 = 0 by norm_num, Real.sqrt_zero]
      rw [show ((0 : ℝ) - 0) ^ 2 + ((0 : ℝ) - 2) ^ 2 = 2 ^ 2 by norm_num]
      rw [Real.sqrt_sq (by norm_num : (0 : ℝ) ≤ 2)]
    simp only [unrectified_to_waveform, capThree]
    rw [trackFrom_capThree_two]
    simp [hds0, np_div_vec]

/-- A successful buffer write preserves the number of rows, the width of
every row, and leaves row 0 untouched when the frame index is positive. -/
theorem writeCell_ok_inv {pos pos2 : Traj} {f i : ℕ} {c : ℚ × ℚ}
    (h : writeCell pos f i c = .ok pos2) :
    pos2.length = pos.length ∧ (∀ n, shapeOK n pos → shapeOK n pos2) ∧
    (f ≠ 0 → pos2[0]? = pos[0]?) := by
  unfold writeCell at h
  split at h
  case isTrue hf =>
    injection h with h2
    subst h2
    refine ⟨by simp, ?_, fun hf0 => List.getElem?_set_ne hf0⟩
    intro n hs row hrow
    rcases List.mem_or_eq_of_mem_set hrow with hmem | heq
    · exact hs row hmem
    · subst heq
      rw [List.length_set]
      have hmem2 : pos.getD f [] ∈ pos := by
        rw [List.getD_eq_getElem?_getD, List.getElem?_eq_getElem hf]
        exact List.getElem_mem hf
      exact hs _ hmem2
  case isFalse => exact absurd h (by simp)

/-- One pass over the tracker bank preserves the number of rows, the width of
every row, and row 0 when the frame index is positive. -/
theorem updateTrackers_ok_inv {φ σ : Type} (cv : Cv2Model φ σ) (fIdx : ℕ) :
    ∀ (states : List σ) (frame : φ) (i : ℕ) (pos : Traj) (r : List σ × Traj),
      updateTrackers cv fIdx states frame i pos = .ok r →
      r.2.length = pos.length ∧ (∀ n, shapeOK n pos → shapeOK n r.2) ∧
      (fIdx ≠ 0 → r.2[0]? = pos[0]?) := by
  intro states
  induction states with
  | nil =>
    intro frame i pos r h
    simp only [updateTrackers] at h
    injection h with h2
    subst h2
    exact ⟨rfl, fun n hs => hs, fun _ => rfl⟩
  | cons s ss ih =>
    intro frame i pos r h
    simp only [updateTrackers] at h
    by_cases hr : (cv.update s frame).1 = true
    · rw [if_pos hr] at h
      cases hw : writeCell pos fIdx i (BBox.center (cv.update s frame).2.1) with
      | error e => rw [hw] at h; simp [Except.bind] at h
      | ok pos1 =>
        rw [hw] at h
        simp only [Except.bind] at h
        cases hu : updateTrackers cv fIdx ss (cv.rectangle frame (cv.update s frame).2.1)
            (i + 1) pos1 with
        | error e => rw [hu] at h; simp [Except.map] at h
        | ok p =>
          rw [hu] at h
          simp only [Except.map] at h
          injection h with h2
          subst h2
          obtain ⟨l1, s1, g1⟩ := writeCell_ok_inv hw
          obtain ⟨l2, s2, g2⟩ := ih _ _ _ p hu
          exact ⟨l2.trans l1, fun n hs => s2 n (s1 n hs),
            fun hf0 => (g2 hf0).trans (g1 hf0)⟩
    · rw [if_neg hr] at h
      cases hu : updateTrackers cv fIdx ss frame (i + 1) pos with
      | error e => rw [hu] at h; simp [Except.map] at h
      | ok p =>
        rw [hu] at h
        simp only [Except.map] at h
        injection h with h2
        subst h2
        obtain ⟨l2, s2, g2⟩ := ih _ _ _ p hu
        exact ⟨l2, s2, g2⟩

/-- The whole frame loop preserves the number of rows, the width of every
row, and row 0 when the first frame index used is positive. -/
theorem trackLoop_ok_inv {φ σ : Type} (cv : Cv2Model φ σ) (showWin : Bool) (esc : ℕ → Bool) :
    ∀ (frames : List φ) (readsDone : ℕ) (states : List σ) (pos pos2 : Traj),
      trackLoop cv showWin esc frames readsDone states pos = .ok pos2 →
      pos2.length = pos.length ∧ (∀ n, shapeOK n pos → shapeOK n pos2) ∧
      (readsDone ≠ 0 → pos2[0]? = pos[0]?) := by
  intro frames
  induction frames with
  | nil =>
    intro rd st pos pos2 h
    simp only [trackLoop] at h
    injection h with h2
    subst h2
    exact ⟨rfl, fun n hs => hs, fun _ => rfl⟩
  | cons f rest ih =>
    intro rd st pos pos2 h
    simp only [trackLoop] at h
    cases hu : updateTrackers cv rd st f 0 pos with
    | error e => rw [hu] at h; simp [Except.bind] at h
    | ok sp =>
      rw [hu] at h
      simp only [Except.bind] at h
      obtain ⟨l1, s1, g1⟩ := updateTrackers_ok_inv cv rd st f 0 pos sp hu
      by_cases hesc : (showWin && esc rd) = true
      · rw [if_pos hesc] at h
        injection h with h2
        subst h2
        exact ⟨l1, s1, g1⟩
      · rw [if_neg hesc] at h
        obtain ⟨l2, s2, g2⟩ := ih (rd + 1) sp.1 sp.2 pos2 h
        exact ⟨l2.trans l1, fun n hs => s2 n (s1 n hs),
          fun hrd => (g2 (Nat.succ_ne_zero rd)).trans (g1 hrd)⟩

/-- The scalar pipeline is exactly tracking followed by the elementwise
division of the buffer by ppm. -/
theorem rect_eq_map_div {φ σ : Type} (cv : Cv2Model φ σ) (cap : Cap φ) (ppm : ℚ)
    (num_stakes : ℕ) (rois : ℕ → BBox) (showWin : Bool) (esc : ℕ → Bool) :
    (rect_floats_video_to_waveform cv cap ppm num_stakes rois showWin esc).2
      = ((track_objects_in_video cv cap num_stakes rois showWin esc).2).map
          fun pos => divScalar pos ppm :=
  rfl

/-- Claim C4, witness for the amended theorem at a concrete run with the
non-positive scale ppm = -1, together with the unchecked zero-entry scale
vector on the per-marker pipeline. -/
theorem c4_witness :
    (rect_floats_video_to_waveform cvConst capTwo (-1) 1 roisZero false escNever).2
      = .ok (divScalar [[(0, 0)], [(10, 10)]] (-1)) ∧
    (unrectified_to_waveform cvConst capThree 2 ptsZero roisZero false escNever).isSome
      = true :=
  c4_amended cvConst capTwo (-1) 1 roisZero false escNever [[(0, 0)], [(10, 10)]]
    (by norm_num [track_objects_in_video, track_objects_in_video_from, trackLoop, updateTrackers, writeCell,
      BBox.center, cvConst, capTwo, roisZero, escNever, List.replicate, List.getD,
      Except.bind, Except.map])

/-- Claim C6: whenever a run returns a buffer, the buffer has exactly the
reported frame count many rows and one cell per stake in every row, and the
calibrated result of the scalar pipeline has the same shape, no matter how
many frames lost tracking. -/
theorem c6_shape {φ σ : Type} (cv : Cv2Model φ σ) (cap : Cap φ) (num_stakes : ℕ)
    (rois : ℕ → BBox) (showWin : Bool) (esc : ℕ → Bool) :
    (∀ traj, (track_objects_in_video cv cap num_stakes rois showWin esc).2 = .ok traj →
      traj.length = cap.frameCount ∧ shapeOK num_stakes traj) ∧
    (∀ ppm res,
      (rect_floats_video_to_waveform cv cap ppm num_stakes rois showWin esc).2 = .ok res →
      res.length = cap.frameCount ∧ shapeOK num_stakes res) := by
  have htrack : ∀ traj,
      (track_objects_in_video cv cap num_stakes rois showWin esc).2 = .ok traj →
      traj.length = cap.frameCount ∧ shapeOK num_stakes traj := by
    intro traj ht
    simp only [track_objects_in_video] at ht
    cases hc : cap.frames with
    | nil => rw [hc] at ht; simp [track_objects_in_video_from] at ht
    | cons f0 rest =>
      rw [hc] at ht
      simp only [track_objects_in_video_from] at ht
      obtain ⟨l1, s1, _⟩ := trackLoop_ok_inv cv showWin esc rest 1 _ _ traj ht
      constructor
      · rw [l1, List.length_replicate]
      · refine s1 num_stakes ?_
        intro row hrow
        rw [(List.mem_replicate.mp hrow).2, List.length_replicate]
  refine ⟨htrack, ?_⟩
  intro ppm res hr
  rw [rect_eq_map_div] at hr
  cases htr : (track_objects_in_video cv cap num_stakes rois showWin esc).2 with
  | error e => rw [htr] at hr; simp [Except.map] at hr
  | ok traj =>
    rw [htr] at hr
    simp only [Except.map] at hr
    injection hr with h2
    subst h2
    obtain ⟨l1, s1⟩ := htrack traj htr
    constructor
    · rw [divScalar, List.length_map, l1]
    · intro row hrow
      rw [divScalar] at hrow
      obtain ⟨row0, hrow0, hmap⟩ := List.mem_map.mp hrow
      rw [← hmap, List.length_map]
      exact s1 row0 hrow0

/-- Claim C6, witness: a concrete two-frame run with one stake. -/
theorem c6_witness :
    ([[((0 : ℚ), (0 : ℚ))], [(10, 10)]] : Traj).length = capTwo.frameCount ∧
    shapeOK 1 [[((0 : ℚ), (0 : ℚ))], [(10, 10)]] :=
  (c6_shape cvConst capTwo 1 roisZero false escNever).1 [[(0, 0)], [(10, 10)]]
    (by norm_num [track_objects_in_video, track_objects_in_video_from, trackLoop, updateTrackers, writeCell,
      BBox.center, cvConst, capTwo, roisZero, escNever, List.replicate, List.getD,
      Except.bind, Except.map])

/-- Claim C10: frame 0 is consumed by the initialization read, the loop
records only frame indices of at least 1, so row 0 of any returned buffer is
the untouched zero initialization. -/
theorem c10_row_zero {φ σ : Type} (cv : Cv2Model φ σ) (cap : Cap φ) (num_stakes : ℕ)
    (rois : ℕ → BBox) (showWin : Bool) (esc : ℕ → Bool) (traj : Traj)
    (htotal : 0 < cap.frameCount)
    (ht : (track_objects_in_video cv cap num_stakes rois showWin esc).2 = .ok traj) :
    traj[0]? = some (List.replicate num_stakes ((0 : ℚ), (0 : ℚ))) := by
  simp only [track_objects_in_video] at ht
  cases hc : cap.frames with
  | nil => rw [hc] at ht; simp [track_objects_in_video_from] at ht
  | cons f0 rest =>
    rw [hc] at ht
    simp only [track_objects_in_video_from] at ht
    obtain ⟨_, _, g1⟩ := trackLoop_ok_inv cv showWin esc rest 1 _ _ traj ht
    rw [g1 one_ne_zero]
    exact List.getElem?_replicate_of_lt htotal

/-- Claim C10, witness: a concrete two-frame run with one stake whose tracker
always succeeds away from the origin. -/
theorem c10_witness :
    ([[((0 : ℚ), (0 : ℚ))], [(10, 10)]] : Traj)[0]?
      = some (List.replicate 1 ((0 : ℚ), (0 : ℚ))) :=
  c10_row_zero cvConst capTwo 1 roisZero false escNever [[(0, 0)], [(10, 10)]]
    (by norm_num [capTwo])
    (by norm_num [track_objects_in_video, track_objects_in_video_from, trackLoop, updateTrackers, writeCell,
      BBox.center, cvConst, capTwo, roisZero, escNever, List.replicate, List.getD,
      Except.bind, Except.map])

/-- When the frame index is inside the buffer, the tracker pass always
succeeds and preserves the number of rows. -/
theorem updateTrackers_ok_of_lt {φ σ : Type} (cv : Cv2Model φ σ) (fIdx : ℕ) :
    ∀ (states : List σ) (frame : φ) (i : ℕ) (pos : Traj), fIdx < pos.length →
      ∃ r, updateTrackers cv fIdx states frame i pos = .ok r ∧
        r.2.length = pos.length := by
  intro states
  induction states with
  | nil => intro frame i pos h; exact ⟨([], pos), rfl, rfl⟩
  | cons s ss ih =>
    intro frame i pos h
    by_cases hr : (cv.update s frame).1 = true
    · obtain ⟨r, hrec, hlen⟩ := ih (cv.rectangle frame (cv.update s frame).2.1) (i + 1)
        (pos.set fIdx ((pos.getD fIdx []).set i (BBox.center (cv.update s frame).2.1)))
        (by simpa using h)
      refine ⟨((cv.update s frame).2.2 :: r.1, r.2), ?_, by simpa using hlen⟩
      simp only [updateTrackers, writeCell]
      rw [if_pos hr, if_pos h]
      simp only [Except.bind]
      rw [hrec]
      simp only [Except.map]
    · obtain ⟨r, hrec, hlen⟩ := ih frame (i + 1) pos h
      refine ⟨((cv.update s frame).2.2 :: r.1, r.2), ?_, hlen⟩
      simp only [updateTrackers]
      rw [if_neg hr, hrec]
      simp only [Except.map]

/-- When the number of frames still to read fits inside the buffer, the frame
loop always returns a buffer. -/
theorem trackLoop_ok_of_le {φ σ : Type} (cv : Cv2Model φ σ) (showWin : Bool)
    (esc : ℕ → Bool) :
    ∀ (frames : List φ) (readsDone : ℕ) (states : List σ) (pos : Traj),
      readsDone + frames.length ≤ pos.length →
      ∃ pos2, trackLoop cv showWin esc frames readsDone states pos = .ok pos2 := by
  intro frames
  induction frames with
  | nil => intro rd st pos _; exact ⟨pos, rfl⟩
  | cons f rest ih =>
    intro rd st pos h
    have hlt : rd < pos.length := by simp only [List.length_cons] at h; omega
    obtain ⟨r, hu, hlen⟩ := updateTrackers_ok_of_lt cv rd st f 0 pos hlt
    by_cases hesc : (showWin && esc rd) = true
    · exact ⟨r.2, by simp [trackLoop, hu, Except.bind, hesc]⟩
    · obtain ⟨pos2, hrec⟩ := ih (rd + 1) r.1 r.2
        (by rw [hlen]; simp only [List.length_cons] at h; omega)
      exact ⟨pos2, by simp [trackLoop, hu, Except.bind, hesc, hrec]⟩

/-- Claim C9, amended: every completed write stays inside the buffer, and
when the reported frame count does not under-shoot the decodable frames the
run returns a buffer; when it under-shoots, the loop reaches a frame index
outside the buffer and aborts with the fatal index error (the counterexample
theorem), rather than tolerating the short count. -/
theorem c9_amended {φ σ : Type} (cv : Cv2Model φ σ) (cap : Cap φ) (num_stakes : ℕ)
    (rois : ℕ → BBox) (showWin : Bool) (esc : ℕ → Bool)
    (hne : cap.frames ≠ []) (hle : cap.frames.length ≤ cap.frameCount) :
    ∃ traj, (track_objects_in_video cv cap num_stakes rois showWin esc).2 = .ok traj := by
  cases hc : cap.frames with
  | nil => exact absurd hc hne
  | cons f0 rest =>
    simp only [track_objects_in_video, track_objects_in_video_from, hc]
    apply trackLoop_ok_of_le
    rw [List.length_replicate]
    rw [hc] at hle
    simp only [List.length_cons] at hle
    omega

/-- Claim C9, witness for the amended theorem: two decodable frames against a
reported count of 3 (an over-shooting count) still return a buffer. -/
theorem c9_witness :
    ∃ traj, (track_objects_in_video cvConst ⟨[(), ()], 3⟩ 1 roisZero false escNever).2
      = .ok traj :=
  c9_amended cvConst ⟨[(), ()], 3⟩ 1 roisZero false escNever (by simp) (by simp)

/-- Claim C1: for every positive ppm, the waveform returned by the scalar
pipeline is exactly the tracked trajectory divided cell by cell by ppm, with
the same shape. -/
theorem c1_global_scale {φ σ : Type} (cv : Cv2Model φ σ) (cap : Cap φ) (ppm : ℚ)
    (num_stakes : ℕ) (rois : ℕ → BBox) (showWin : Bool) (esc : ℕ → Bool)
    (traj res : Traj) (hppm : 0 < ppm)
    (ht : (track_objects_in_video cv cap num_stakes rois showWin esc).2 = .ok traj)
    (hr : (rect_floats_video_to_waveform cv cap ppm num_stakes rois showWin esc).2
      = .ok res) :
    res.length = traj.length ∧
    (∀ f : ℕ, (res[f]?).map List.length = (traj[f]?).map List.length) ∧
    (∀ f i : ℕ, (res[f]?.bind fun row : List (ℚ × ℚ) => row[i]?)
        = (traj[f]?.bind fun row : List (ℚ × ℚ) => row[i]?).map
            fun p : ℚ × ℚ => (p.1 / ppm, p.2 / ppm)) := by
  rw [rect_eq_map_div, ht] at hr
  simp only [Except.map] at hr
  injection hr with h2
  subst h2
  refine ⟨by simp [divScalar], ?_, ?_⟩
  · intro f
    simp only [divScalar, List.getElem?_map]
    cases traj[f]? <;> simp
  · intro f i
    simp only [divScalar, List.getElem?_map]
    cases traj[f]? <;> simp [List.getElem?_map]

/-- Claim C1, witness: a concrete run with ppm = 2 divides the tracked center
(10, 10) to (5, 5) and keeps the shape. -/
theorem c1_witness :
    ([[((0 : ℚ), (0 : ℚ))], [(5, 5)]] : Traj).length
      = ([[((0 : ℚ), (0 : ℚ))], [(10, 10)]] : Traj).length ∧
    (∀ f : ℕ, ((([[((0 : ℚ), (0 : ℚ))], [(5, 5)]] : Traj))[f]?).map List.length
      = ((([[((0 : ℚ), (0 : ℚ))], [(10, 10)]] : Traj))[f]?).map List.length) ∧
    (∀ f i : ℕ,
      ((([[((0 : ℚ), (0 : ℚ))], [(5, 5)]] : Traj))[f]?.bind
          fun row : List (ℚ × ℚ) => row[i]?)
      = ((([[((0 : ℚ), (0 : ℚ))], [(10, 10)]] : Traj))[f]?.bind
          fun row : List (ℚ × ℚ) => row[i]?).map
          fun p : ℚ × ℚ => (p.1 / 2, p.2 / 2)) :=
  c1_global_scale cvConst capTwo 2 1 roisZero false escNever
    [[(0, 0)], [(10, 10)]] [[(0, 0)], [(5, 5)]] (by norm_num)
    (by norm_num [track_objects_in_video, track_objects_in_video_from, trackLoop, updateTrackers, writeCell,
      BBox.center, cvConst, capTwo, roisZero, escNever, List.replicate, List.getD,
      Except.bind, Except.map])
    (by norm_num [rect_floats_video_to_waveform, divScalar, track_objects_in_video, track_objects_in_video_from,
      trackLoop, updateTrackers, writeCell, BBox.center, cvConst, capTwo, roisZero,
      escNever, List.replicate, List.getD, Except.bind, Except.map])

/-- Claim C7: the derived scale vector has one entry per reference pair, each
entry is the Euclidean distance of its pair (nonnegative and squaring back to
the squared coordinate differences), and the pair (0,0), (3,4) derives the
scale 5 (the 3-4-5 triangle). -/
theorem c7_derive_scale :
    (∀ pts, (derive_scale pts).length = pts.length) ∧
    (∀ (pts : List ((ℝ × ℝ) × (ℝ × ℝ))) (i : ℕ) (p q : ℝ × ℝ),
      pts[i]? = some (p, q) →
      ∃ e, (derive_scale pts)[i]? = some e ∧ 0 ≤ e ∧
        e ^ 2 = (p.1 - q.1) ^ 2 + (p.2 - q.2) ^ 2) ∧
    derive_scale [(((0 : ℝ), (0 : ℝ)), ((3 : ℝ), (4 : ℝ)))] = [5] := by
  refine ⟨fun pts => by simp [derive_scale], ?_, ?_⟩
  · intro pts i p q hpq
    refine ⟨Real.sqrt ((p.1 - q.1) ^ 2 + (p.2 - q.2) ^ 2), ?_,
      Real.sqrt_nonneg _, Real.sq_sqrt (by positivity)⟩
    simp [derive_scale, List.getElem?_map, hpq]
  · simp only [derive_scale, List.map]
    rw [show ((0 : ℝ) - 3) ^ 2 + ((0 : ℝ) - 4) ^ 2 = 5 ^ 2 by norm_num]
    rw [Real.sqrt_sq (by norm_num : (0 : ℝ) ≤ 5)]

/-- Claim C7, witness: the per-entry characterization applied to the single
pair (0,0), (3,4). -/
theorem c7_witness :
    ∃ e, (derive_scale [(((0 : ℝ), (0 : ℝ)), ((3 : ℝ), (4 : ℝ)))])[0]? = some e ∧
      0 ≤ e ∧ e ^ 2 = ((0 : ℝ) - 3) ^ 2 + ((0 : ℝ) - 4) ^ 2 :=
  c7_derive_scale.2.1 [(((0 : ℝ), (0 : ℝ)), ((3 : ℝ), (4 : ℝ)))] 0
    ((0 : ℝ), (0 : ℝ)) ((3 : ℝ), (4 : ℝ)) rfl

/-- Reference pairs for two stakes, of Euclidean distances 5 and 2. -/
noncomputable def ptsA : List ((ℝ × ℝ) × (ℝ × ℝ)) :=
  [((0, 0), (3, 4)), ((0, 0), (0, 2))]

/-- Reference pairs for three stakes. -/
noncomputable def ptsB : List ((ℝ × ℝ) × (ℝ × ℝ)) :=
  [((0, 0), (3, 4)), ((0, 0), (0, 2)), ((0, 0), (0, 1))]

/-- Concrete evaluation used only for the three-stake branch: the same
advanced three-frame capture tracked with three stakes records (10, 10) for
every stake at frame index 2. -/
theorem trackFrom_capThree_three :
    (track_objects_in_video_from cvConst 1 [(), ()] 3 3 roisZero false escNever).2
      = .ok [[(0, 0), (0, 0), (0, 0)], [(0, 0), (0, 0), (0, 0)],
          [(10, 10), (10, 10), (10, 10)]] := by
  norm_num [track_objects_in_video_from, trackLoop, updateTrackers, writeCell,
    BBox.center, cvConst, roisZero, escNever, List.replicate, List.getD,
    Except.bind, Except.map]

/-- Claim C2, refuted on the code.  On a three-frame video, frame 0 is
consumed by the gradation-point read of line 141 and frame 1 by tracker
initialization, so the loop records at frame index 2.  With two stakes of
derived scales 5 and 2 and both markers tracked at pixel center (10, 10)
there, the numpy broadcast of positions / ppm aligns the length-2 scale
vector with the trailing coordinate axis, so both markers calibrate to
(10/5, 10/2) = (2, 5) where the claim requires (2, 2) for marker 0 and
(5, 5) for marker 1; and with three stakes the division does not broadcast
at all (ValueError). -/
theorem c2_broadcast_misaligned :
    unrectified_to_waveform cvConst capThree 2 ptsA roisZero false escNever
      = some [[(0, 0), (0, 0)], [(0, 0), (0, 0)], [(2, 5), (2, 5)]] ∧
    ((2 : ℝ), (5 : ℝ)) ≠ ((10 / 5 : ℝ), (10 / 5 : ℝ)) ∧
    unrectified_to_waveform cvConst capThree 3 ptsB roisZero false escNever = none := by
  have h5 : Real.sqrt (((0 : ℝ) - 3) ^ 2 + ((0 : ℝ) - 4) ^ 2) = 5 := by
    rw [show ((0 : ℝ) - 3) ^ 2 + ((0 : ℝ) - 4) ^ 2 = 5 ^ 2 by norm_num]
    exact Real.sqrt_sq (by norm_num)
  have h2 : Real.sqrt (((0 : ℝ) - 0) ^ 2 + ((0 : ℝ) - 2) ^ 2) = 2 := by
    rw [show ((0 : ℝ) - 0) ^ 2 + ((0 : ℝ) - 2) ^ 2 = 2 ^ 2 by norm_num]
    exact Real.sqrt_sq (by norm_num)
  have hds : derive_scale ptsA = [5, 2] := by
    simp only [derive_scale, ptsA, List.map]
    rw [h5, h2]
  refine ⟨?_, ?_, ?_⟩
  · simp only [unrectified_to_waveform, capThree]
    rw [trackFrom_capThree_two]
    simp only [hds, np_div_vec, trajToReal, List.map]
    norm_num
  · intro hcontra
    rw [Prod.ext_iff] at hcontra
    norm_num at hcontra
  · simp only [unrectified_to_waveform, capThree]
    rw [trackFrom_capThree_three]
    rfl

end Waves
